import Mathlib

/-!
Verification of the UniversalSpeech Python binding layer
(src/UniversalSpeech/__init__.py, src/UniversalSpeech/load.py).

The repository is a thin facade over a native speech/braille DLL loaded
through ctypes.  We embed it shallowly:

* the opaque native library is a record `NativeLib` of pure functions, one
  per exported entry point the facade calls (speechSay, speechSayA,
  brailleDisplay, speechGetValue, speechSetValue, speechGetString);
* every facade method is a Lean function that returns its Python return
  value together with the list of native calls it issues, in order
  (`NativeCall`); error paths return `Except PyError`;
* the `while True` loop of `get_engines` is embedded with explicit fuel
  (`none` = fuel exhausted); its termination claim is proved for every
  fuel bound larger than the first empty engine name;
* the Loader's filesystem probing (os.path.exists / os.listdir) is
  embedded as an abstract directory listing `FS`, keyed by the folder name
  relative to the package directory.

Machine integers do not overflow here: Python integers are unbounded, so
parameter identifiers and values are `Int`.
-/

/-- Errors raised by the binding layer.  `AttributeError` is the Python
builtin raised when attribute lookup on an object fails.
The other two are modelled from the spec: the module
src/UniversalSpeech/exceptions.py is imported by the sources but is not
part of the provided files; per the spec it declares the MissingDependency
error (`DLLFileNotFoundError`, raised by the Loader) and the
UnsupportedCapability error (`UnsupportedError`, raised by the capability
gates).  Only the class names live there; every raise site is in the
provided sources. -/
inductive PyError where
  | DLLFileNotFoundError (msg : String)
  | UnsupportedError (msg : String)
  | AttributeError (attr : String)
deriving DecidableEq, Repr

/-- One call into the native library, as issued by the facade
(src/UniversalSpeech/__init__.py accesses these through
`self.__uspeech.<entry>`). -/
inductive NativeCall where
  | speechSay (msg : String) (interrupt : Bool)
  | speechSayA (msg : String) (interrupt : Bool)
  | brailleDisplay (msg : String)
  | speechStop
  | speechGetValue (what : Int)
  | speechSetValue (what : Int) (value : Int)
  | speechGetString (what : Int)
deriving DecidableEq, Repr

/-- The opaque native library: one pure function per exported entry point.
Return values of the speak/braille entry points are native status codes
(ints); `speechGetString` returns a wide string.  The facade never
inspects the status codes. -/
structure NativeLib where
  speechSay : String → Bool → Int
  speechSayA : String → Bool → Int
  brailleDisplay : String → Int
  speechStop : Int
  speechGetValue : Int → Int
  speechSetValue : Int → Int → Int
  speechGetString : Int → String

/-! Parameter identifier constants, from src/UniversalSpeech/__init__.py
lines 11-27: the first 22 names are bound to `range(0, 22)` in order, the
selector bases to fixed hexadecimal literals. -/

def VOLUME : Int := 0
def VOLUME_MAX : Int := 1
def VOLUME_MIN : Int := 2
def VOLUME_SUPPORTED : Int := 3
def RATE : Int := 4
def RATE_MAX : Int := 5
def RATE_MIN : Int := 6
def RATE_SUPPORTED : Int := 7
def PITCH : Int := 8
def PITCH_MAX : Int := 9
def PITCH_MIN : Int := 10
def PITCH_SUPPORTED : Int := 11
def INFLEXION : Int := 12
def INFLEXION_MAX : Int := 13
def INFLEXION_MIN : Int := 14
def INFLEXION_SUPPORTED : Int := 15
def PAUSED : Int := 16
def PAUSE_SUPPORTED : Int := 17
def BUSY : Int := 18
def BUSY_SUPPORTED : Int := 19
def WAIT : Int := 20
def WAIT_SUPPORTED : Int := 21

def ENABLE_NATIVE_SPEECH : Int := 0xFFFF
def VOICE : Int := 0x10000
def LANGUAGE : Int := 0x20000
def SUBENGINE : Int := 0x30000
def ENGINE : Int := 0x40000
def ENGINE_AVAILABLE : Int := 0x50000
def AUTO_ENGINE : Int := 0xFFFE
def USER_PARAM : Int := 0x1000000

/-! Facade methods (class UniversalSpeech).  Each returns its Python
result paired with the trace of native calls it makes, in order. -/

/-- Method `say(msg, interrupt=True)`: forwards to `speechSay`. -/
def say (lib : NativeLib) (msg : String) (interrupt : Bool) : Int × List NativeCall :=
  (lib.speechSay msg interrupt, [NativeCall.speechSay msg interrupt])

/-- Method `say_a(msg, interrupt=True)`: forwards to `speechSayA`. -/
def say_a (lib : NativeLib) (msg : String) (interrupt : Bool) : Int × List NativeCall :=
  (lib.speechSayA msg interrupt, [NativeCall.speechSayA msg interrupt])

/-- Method `braille(msg)`: forwards to `brailleDisplay`. -/
def braille (lib : NativeLib) (msg : String) : Int × List NativeCall :=
  (lib.brailleDisplay msg, [NativeCall.brailleDisplay msg])

/-- Method `speech(msg)`: calls `self.say(msg)` (interrupt defaulting to
True) then `self.braille(msg)`, discarding both native status codes and
returning None; the value component is therefore `Unit` and only the trace
remains.  ctypes surfaces native failure as a status code, which this
method drops, so the braille call is unconditional. -/
def speech (lib : NativeLib) (msg : String) : Unit × List NativeCall :=
  ((), (say lib msg true).2 ++ (braille lib msg).2)

/-- Method `stop()`: forwards to `speechStop`. -/
def stop (lib : NativeLib) : Int × List NativeCall :=
  (lib.speechStop, [NativeCall.speechStop])

/-- Method `get_value(what)`: raw pass-through read. -/
def get_value (lib : NativeLib) (what : Int) : Int × List NativeCall :=
  (lib.speechGetValue what, [NativeCall.speechGetValue what])

/-- Method `set_value(what, value)`: raw pass-through write. -/
def set_value (lib : NativeLib) (what : Int) (value : Int) : Int × List NativeCall :=
  (lib.speechSetValue what value, [NativeCall.speechSetValue what value])

/-- Method `get_string(what)`: raw pass-through string read (the restype
assignment is a ctypes marshalling directive, not a native call). -/
def get_string (lib : NativeLib) (what : Int) : String × List NativeCall :=
  (lib.speechGetString what, [NativeCall.speechGetString what])

/-- Python truthiness of a bool passed to ctypes: True marshals as 1,
False as 0. -/
def boolInt (b : Bool) : Int := if b then 1 else 0

/-- Method `enable_native_speech(enabled=True)`: body is exactly
`self.set_value(ENABLE_NATIVE_SPEECH, enabled)`; returns None. -/
def enable_native_speech (lib : NativeLib) (enabled : Bool) : Unit × List NativeCall :=
  ((), (set_value lib ENABLE_NATIVE_SPEECH (boolInt enabled)).2)

/-- Property `engine_used`: reads `get_value(ENGINE)`, then resolves the
id with `get_string(ENGINE + engine_id)`. -/
def engine_used (lib : NativeLib) : String × List NativeCall :=
  let engine_id := (get_value lib ENGINE).1
  ((get_string lib (ENGINE + engine_id)).1,
    (get_value lib ENGINE).2 ++ (get_string lib (ENGINE + engine_id)).2)

/-- Property `rate_supported`: `self.get_value(RATE_SUPPORTED) != 0`. -/
def rate_supported (lib : NativeLib) : Bool × List NativeCall :=
  let g := get_value lib RATE_SUPPORTED
  (g.1 != 0, g.2)

/-- Property `volume_supported`: `self.get_value(VOLUME_SUPPORTED) != 0`. -/
def volume_supported (lib : NativeLib) : Bool × List NativeCall :=
  let g := get_value lib VOLUME_SUPPORTED
  (g.1 != 0, g.2)

/-- Property `pitch_supported`: `self.get_value(PITCH_SUPPORTED) != 0`. -/
def pitch_supported (lib : NativeLib) : Bool × List NativeCall :=
  let g := get_value lib PITCH_SUPPORTED
  (g.1 != 0, g.2)

/-- Property `inflexion_supported`: `self.get_value(INFLEXION_SUPPORTED) != 0`. -/
def inflexion_supported (lib : NativeLib) : Bool × List NativeCall :=
  let g := get_value lib INFLEXION_SUPPORTED
  (g.1 != 0, g.2)

/-- Method `set_rate(value, min_rate=None, max_rate=None)`: raises
UnsupportedError when `self.rate_supported` is false, else writes
`set_value(RATE, value)`, then the optional min and max writes.  Return
value is None, so only the trace and the outcome remain. -/
def set_rate (lib : NativeLib) (value : Int) (min_rate max_rate : Option Int) :
    List NativeCall × Except PyError Unit :=
  let sup := rate_supported lib
  if !sup.1 then
    (sup.2, Except.error (PyError.UnsupportedError
      "Set rate is not supported with the current engine."))
  else
    let w := (set_value lib RATE value).2
    let wmin := match min_rate with
      | some m => (set_value lib RATE_MIN m).2
      | none => []
    let wmax := match max_rate with
      | some m => (set_value lib RATE_MAX m).2
      | none => []
    (sup.2 ++ w ++ wmin ++ wmax, Except.ok ())

/-- Method `set_volume(value, min_volume=None, max_volume=None)`. -/
def set_volume (lib : NativeLib) (value : Int) (min_volume max_volume : Option Int) :
    List NativeCall × Except PyError Unit :=
  let sup := volume_supported lib
  if !sup.1 then
    (sup.2, Except.error (PyError.UnsupportedError
      "Set volume is not supported with the current engine."))
  else
    let w := (set_value lib VOLUME value).2
    let wmin := match min_volume with
      | some m => (set_value lib VOLUME_MIN m).2
      | none => []
    let wmax := match max_volume with
      | some m => (set_value lib VOLUME_MAX m).2
      | none => []
    (sup.2 ++ w ++ wmin ++ wmax, Except.ok ())

/-- Method `set_pitch(value, min_pitch=None, max_pitch=None)`. -/
def set_pitch (lib : NativeLib) (value : Int) (min_pitch max_pitch : Option Int) :
    List NativeCall × Except PyError Unit :=
  let sup := pitch_supported lib
  if !sup.1 then
    (sup.2, Except.error (PyError.UnsupportedError
      "Set pitch is not supported with the current engine."))
  else
    let w := (set_value lib PITCH value).2
    let wmin := match min_pitch with
      | some m => (set_value lib PITCH_MIN m).2
      | none => []
    let wmax := match max_pitch with
      | some m => (set_value lib PITCH_MAX m).2
      | none => []
    (sup.2 ++ w ++ wmin ++ wmax, Except.ok ())

/-- Method `set_inflexion(value, min_inflexion=None, max_inflexion=None)`. -/
def set_inflexion (lib : NativeLib) (value : Int) (min_inflexion max_inflexion : Option Int) :
    List NativeCall × Except PyError Unit :=
  let sup := inflexion_supported lib
  if !sup.1 then
    (sup.2, Except.error (PyError.UnsupportedError
      "Set inflexion is not supported with the current engine."))
  else
    let w := (set_value lib INFLEXION value).2
    let wmin := match min_inflexion with
      | some m => (set_value lib INFLEXION_MIN m).2
      | none => []
    let wmax := match max_inflexion with
      | some m => (set_value lib INFLEXION_MAX m).2
      | none => []
    (sup.2 ++ w ++ wmin ++ wmax, Except.ok ())

/-- One entry of the list `get_engines` returns: the Python dict
`{"name": name, "available": avail, "Id": i}`. -/
structure EngineDescriptor where
  name : String
  available : Bool
  Id : Int
deriving DecidableEq, Repr

/-- Loop body of `get_engines`: starting at offset `i`, read
`get_string(ENGINE + i)`; an empty name breaks the loop, otherwise read
`get_value(ENGINE_AVAILABLE + i) != 0`, append the descriptor and continue
with `i + 1`.  The Python loop is `while True`, so the embedding carries
fuel; `none` means the fuel ran out before an empty name appeared. -/
def get_enginesAux (lib : NativeLib) : Nat → Int → Option (List EngineDescriptor)
  | 0, _ => none
  | Nat.succ fuel, i =>
    let name := (get_string lib (ENGINE + i)).1
    if name = "" then
      some []
    else
      let avail := (get_value lib (ENGINE_AVAILABLE + i)).1 != 0
      match get_enginesAux lib fuel (i + 1) with
      | none => none
      | some rest => some (⟨name, avail, i⟩ :: rest)

/-- Method `get_engines()`: runs the enumeration loop from offset 0. -/
def get_engines (lib : NativeLib) (fuel : Nat) : Option (List EngineDescriptor) :=
  get_enginesAux lib fuel 0

/-- Attribute names defined on class UniversalSpeech by its class body
(src/UniversalSpeech/__init__.py lines 37-229), in source order.  Python
resolves `self.<name>` against this set (after the instance dict, which
holds only the name-mangled `__uspeech` handle); a name outside it raises
AttributeError. -/
def methodNames : List String :=
  ["__init__", "say", "say_a", "braille", "speech", "speech_a", "stop",
   "get_value", "set_value", "get_string", "enable_native_speech",
   "engine_used", "get_engines", "rate_supported", "volume_supported",
   "pitch_supported", "inflexion_supported", "set_rate", "set_volume",
   "set_pitch", "set_inflexion"]

/-- Python attribute lookup on a UniversalSpeech instance, restricted to
what `speech_a` needs: succeed when the name is a class attribute, raise
AttributeError otherwise. -/
def getattr (name : String) : Except PyError Unit :=
  if methodNames.contains name then Except.ok () else Except.error (PyError.AttributeError name)

/-- Method `speech_a(msg)`: body is `self.sayA(msg)` then
`self.braille(msg)`.  Evaluating `self.sayA` is an attribute lookup that
happens before any call; when it fails, no native call is made and the
braille line is never reached. -/
def speech_a (lib : NativeLib) (msg : String) : List NativeCall × Except PyError Unit :=
  match getattr "sayA" with
  | Except.error e => ([], Except.error e)
  | Except.ok _ => ((say_a lib msg true).2 ++ (braille lib msg).2, Except.ok ())

/-! Loader (src/UniversalSpeech/load.py).  `__current_dir` is the package
install directory; every path below is relative to it.  The filesystem is
abstract: `listdir f` returns the directory listing of folder `f` when the
folder exists (os.path.exists), `none` when it does not. -/

/-- Abstract filesystem seen by the Loader, keyed by folder name relative
to the package directory. -/
structure FS where
  listdir : String → Option (List String)

/-- Required binary files (`self.__dll_files`). -/
def dll_files : List String :=
  ["dolapi.dll", "jfwapi.dll", "nvdaControllerClient.dll", "SAAPI32.dll",
   "UniversalSpeech.dll", "UniversalSpeech.tlb"]

/-- Architecture-dependent folder (`self.__lib_folder`): "lib64" when
platform.architecture() reports a 64-bit process, "lib" otherwise. -/
def lib_folder (is64 : Bool) : String := if is64 then "lib64" else "lib"

/-- Method `Loader._files_check()`: false when the lib folder is absent,
else true iff every required file appears in its listing. -/
def files_check (fs : FS) (is64 : Bool) : Bool :=
  match fs.listdir (lib_folder is64) with
  | none => false
  | some current_dll_files => dll_files.all (fun file => current_dll_files.contains file)

/-- The opened module handle (the ctypes.CDLL object), recording the path
it was opened from. -/
structure Handle where
  path : String
deriving DecidableEq, Repr

/-- Method `Loader.load()`: raises DLLFileNotFoundError when
`_files_check` fails, else opens UniversalSpeech.dll from the lib folder.
The first component lists the modules opened (ctypes.CDLL calls), so the
error path shows that no module is opened. -/
def load (fs : FS) (is64 : Bool) : List String × Except PyError Handle :=
  if files_check fs is64 then
    let dll_path := lib_folder is64 ++ "/UniversalSpeech.dll"
    ([dll_path], Except.ok ⟨dll_path⟩)
  else
    ([], Except.error (PyError.DLLFileNotFoundError "Missing dll files."))

/-! Fixtures and helper lemmas. -/

/-- The descriptor the enumeration loop builds at offset `i`. -/
def engineAt (lib : NativeLib) (i : Int) : EngineDescriptor :=
  ⟨lib.speechGetString (ENGINE + i), lib.speechGetValue (ENGINE_AVAILABLE + i) != 0, i⟩

/-- Native library all of whose integer reads return 0 (every supported
flag is down) and whose strings are empty. -/
def libZero : NativeLib :=
  ⟨fun _ _ => 0, fun _ _ => 0, fun _ => 0, 0, fun _ => 0, fun _ _ => 0, fun _ => ""⟩

/-- Native library all of whose integer reads return 1 (every supported
flag is up). -/
def libOne : NativeLib :=
  ⟨fun _ _ => 0, fun _ _ => 0, fun _ => 0, 0, fun _ => 1, fun _ _ => 0, fun _ => ""⟩

/-- The engine-name fixture of the spec: name "A" at offset 0, "B" at
offset 1, empty from offset 2 on; only engine 0 is available. -/
def libFix : NativeLib :=
  ⟨fun _ _ => 0, fun _ _ => 0, fun _ => 0, 0,
   fun w => if w = ENGINE_AVAILABLE then 1 else 0,
   fun _ _ => 0,
   fun w => if w = ENGINE then "A" else if w = ENGINE + 1 then "B" else ""⟩

/-- Filesystem in which no folder exists. -/
def fsEmpty : FS := ⟨fun _ => none⟩

/-- When the first empty engine name past offset `i` sits `k` steps ahead
and the fuel exceeds `k`, the loop returns exactly the descriptors of the
`k` offsets before it. -/
lemma get_enginesAux_complete (lib : NativeLib) :
    ∀ (k fuel : Nat) (i : Int), k < fuel →
      (∀ j : Nat, j < k → lib.speechGetString (ENGINE + (i + (j : Int))) ≠ "") →
      lib.speechGetString (ENGINE + (i + (k : Int))) = "" →
      get_enginesAux lib fuel i =
        some ((List.range k).map (fun j : Nat => engineAt lib (i + (j : Int)))) := by
  intro k
  induction k with
  | zero =>
    intro fuel i hk hne hempty
    match fuel, hk with
    | Nat.succ f, _ =>
      simp only [Nat.cast_zero, add_zero] at hempty
      simp [get_enginesAux, get_string, hempty]
  | succ k ih =>
    intro fuel i hk hne hempty
    match fuel, hk with
    | Nat.succ f, hk =>
      have h0 : lib.speechGetString (ENGINE + i) ≠ "" := by
        have := hne 0 (Nat.succ_pos k)
        simpa using this
      have hrec := ih f (i + 1) (by omega)
        (fun j hj => by
          have h1 := hne (j + 1) (by omega)
          have harith : i + (((j : Int)) + 1) = i + 1 + (j : Int) := by ring
          simpa [Nat.cast_add, Nat.cast_one, harith] using h1)
        (by
          have harith : i + (((k : Int)) + 1) = i + 1 + (k : Int) := by ring
          simpa [Nat.cast_add, Nat.cast_one, harith] using hempty)
      simp only [get_enginesAux, get_string, get_value, if_neg h0, hrec]
      rw [List.range_succ_eq_map, List.map_cons, List.map_map]
      refine congrArg some (List.cons_eq_cons.mpr ⟨?_, ?_⟩)
      · simp [engineAt]
      · refine List.map_congr_left (fun j hj => ?_)
        have harith : i + 1 + (j : Int) = i + ((Nat.succ j : Nat) : Int) := by
          push_cast
          ring
        simp [Function.comp, harith]

/-- Every descriptor the loop returns for start offset `i` is the one
read at `i` plus its position. -/
lemma get_enginesAux_sound (lib : NativeLib) :
    ∀ (fuel : Nat) (i : Int) (l : List EngineDescriptor),
      get_enginesAux lib fuel i = some l →
      ∀ k : Nat, k < l.length → l.get? k = some (engineAt lib (i + (k : Int))) := by
  intro fuel
  induction fuel with
  | zero =>
    intro i l h
    simp [get_enginesAux] at h
  | succ f ih =>
    intro i l h k hk
    by_cases h0 : lib.speechGetString (ENGINE + i) = ""
    · simp only [get_enginesAux, get_string, if_pos h0] at h
      cases h
      simp at hk
    · simp only [get_enginesAux, get_string, get_value, if_neg h0] at h
      cases heq : get_enginesAux lib f (i + 1) with
      | none => rw [heq] at h; cases h
      | some rest =>
        rw [heq] at h
        cases h
        match k, hk with
        | 0, _ =>
          simp [engineAt]
        | Nat.succ k, hk =>
          have hlen : k < rest.length := by
            simpa using hk
          have h1 := ih (i + 1) rest heq k hlen
          have harith : i + 1 + (k : Int) = i + ((Nat.succ k : Nat) : Int) := by
            push_cast
            ring
          simpa [harith] using h1

/-! Claim theorems. -/

/-- C1: Loader.load() succeeds and returns a module handle iff every one
of the six required binary files is present in the
architecture-appropriate folder (lib64 on a 64-bit process, lib
otherwise); if any required file is absent, or the folder itself is
absent, it raises DLLFileNotFoundError and opens no module (empty list of
opened modules). -/
theorem loader_load_iff_files_present (fs : FS) (is64 : Bool) :
    ((∃ h, (load fs is64).2 = Except.ok h) ↔
      (∃ files, fs.listdir (lib_folder is64) = some files ∧ ∀ f ∈ dll_files, f ∈ files))
    ∧ ((¬ ∃ files, fs.listdir (lib_folder is64) = some files ∧ ∀ f ∈ dll_files, f ∈ files) →
        load fs is64 = ([], Except.error (PyError.DLLFileNotFoundError "Missing dll files.")))
    ∧ lib_folder true = "lib64" ∧ lib_folder false = "lib" := by
  have hbridge : ∀ files : List String,
      dll_files.all (fun file => files.contains file) = true ↔ ∀ f ∈ dll_files, f ∈ files := by
    intro files
    rw [List.all_eq_true]
    exact ⟨fun h f hf => List.elem_iff.mp (h f hf), fun h f hf => List.elem_iff.mpr (h f hf)⟩
  refine ⟨?_, ?_, rfl, rfl⟩
  · unfold load files_check
    cases hdir : fs.listdir (lib_folder is64) with
    | none =>
      simp
    | some files =>
      by_cases hall : dll_files.all (fun file => files.contains file) = true
      · rw [if_pos hall]
        constructor
        · intro _
          exact ⟨files, rfl, (hbridge files).mp hall⟩
        · intro _
          exact ⟨⟨lib_folder is64 ++ "/UniversalSpeech.dll"⟩, rfl⟩
      · rw [if_neg hall]
        constructor
        · rintro ⟨h, hc⟩
          cases hc
        · rintro ⟨files2, hf2, hmem⟩
          cases hf2
          exact absurd ((hbridge files).mpr hmem) hall
  · intro hno
    unfold load files_check
    cases hdir : fs.listdir (lib_folder is64) with
    | none =>
      simp
    | some files =>
      have hnall : ¬ dll_files.all (fun file => files.contains file) = true := by
        intro hall
        exact hno ⟨files, hdir, (hbridge files).mp hall⟩
      rw [if_neg hnall]

/-- Witness for C1: on a filesystem with no folders at all, a 32-bit
load fails with DLLFileNotFoundError and opens nothing. -/
theorem loader_load_iff_files_present_witness :
    load fsEmpty false = ([], Except.error (PyError.DLLFileNotFoundError "Missing dll files.")) :=
  (loader_load_iff_files_present fsEmpty false).2.1
    (by rintro ⟨files, hf, -⟩; exact Option.noConfusion hf)

/-- C2: each capability-gated setter raises UnsupportedError when its
*_SUPPORTED flag reads 0, with no speechSetValue call in its trace (the
raise precedes any native write, so no parameter is mutated), and
performs the primary speechSetValue write and returns normally when the
flag is non-zero. -/
theorem setters_capability_gating (lib : NativeLib) (v : Int) (mn mx : Option Int) :
    (lib.speechGetValue RATE_SUPPORTED = 0 →
      (set_rate lib v mn mx).2 = Except.error (PyError.UnsupportedError
        "Set rate is not supported with the current engine.") ∧
      ∀ w x, NativeCall.speechSetValue w x ∉ (set_rate lib v mn mx).1) ∧
    (lib.speechGetValue RATE_SUPPORTED ≠ 0 →
      (set_rate lib v mn mx).2 = Except.ok () ∧
      NativeCall.speechSetValue RATE v ∈ (set_rate lib v mn mx).1) ∧
    (lib.speechGetValue VOLUME_SUPPORTED = 0 →
      (set_volume lib v mn mx).2 = Except.error (PyError.UnsupportedError
        "Set volume is not supported with the current engine.") ∧
      ∀ w x, NativeCall.speechSetValue w x ∉ (set_volume lib v mn mx).1) ∧
    (lib.speechGetValue VOLUME_SUPPORTED ≠ 0 →
      (set_volume lib v mn mx).2 = Except.ok () ∧
      NativeCall.speechSetValue VOLUME v ∈ (set_volume lib v mn mx).1) ∧
    (lib.speechGetValue PITCH_SUPPORTED = 0 →
      (set_pitch lib v mn mx).2 = Except.error (PyError.UnsupportedError
        "Set pitch is not supported with the current engine.") ∧
      ∀ w x, NativeCall.speechSetValue w x ∉ (set_pitch lib v mn mx).1) ∧
    (lib.speechGetValue PITCH_SUPPORTED ≠ 0 →
      (set_pitch lib v mn mx).2 = Except.ok () ∧
      NativeCall.speechSetValue PITCH v ∈ (set_pitch lib v mn mx).1) ∧
    (lib.speechGetValue INFLEXION_SUPPORTED = 0 →
      (set_inflexion lib v mn mx).2 = Except.error (PyError.UnsupportedError
        "Set inflexion is not supported with the current engine.") ∧
      ∀ w x, NativeCall.speechSetValue w x ∉ (set_inflexion lib v mn mx).1) ∧
    (lib.speechGetValue INFLEXION_SUPPORTED ≠ 0 →
      (set_inflexion lib v mn mx).2 = Except.ok () ∧
      NativeCall.speechSetValue INFLEXION v ∈ (set_inflexion lib v mn mx).1) := by
  refine ⟨?_, ?_, ?_, ?_, ?_, ?_, ?_, ?_⟩ <;> intro h <;>
    simp [set_rate, set_volume, set_pitch, set_inflexion, rate_supported,
      volume_supported, pitch_supported, inflexion_supported, get_value, set_value, h]

/-- Witness for C2: with every flag at 0, set_rate(150) errors; with every
flag at 1, it succeeds. -/
theorem setters_capability_gating_witness :
    (set_rate libZero 150 none none).2 = Except.error (PyError.UnsupportedError
      "Set rate is not supported with the current engine.") ∧
    (set_rate libOne 150 none none).2 = Except.ok () :=
  ⟨((setters_capability_gating libZero 150 none none).1 rfl).1,
   ((setters_capability_gating libOne 150 none none).2.1 (by decide)).1⟩

/-- C3: when RATE_SUPPORTED reads non-zero, set_rate issues (after the
single gate read) exactly the write set_value(RATE, v) first, then the
RATE_MIN write when min_rate is supplied, then the RATE_MAX write when
max_rate is supplied, each omitted when its argument is None. -/
theorem set_rate_write_order (lib : NativeLib) (v : Int) (mn mx : Option Int)
    (h : lib.speechGetValue RATE_SUPPORTED ≠ 0) :
    (set_rate lib v mn mx).1 =
      NativeCall.speechGetValue RATE_SUPPORTED :: NativeCall.speechSetValue RATE v ::
        ((match mn with | some m => [NativeCall.speechSetValue RATE_MIN m] | none => []) ++
         (match mx with | some m => [NativeCall.speechSetValue RATE_MAX m] | none => [])) := by
  cases mn <;> cases mx <;>
    simp [set_rate, rate_supported, get_value, set_value, h]

/-- Witness for C3: on a fully supported engine, set_rate(150, 50, 250)
issues the gate read then the RATE, RATE_MIN, RATE_MAX writes in order. -/
theorem set_rate_write_order_witness :
    (set_rate libOne 150 (some 50) (some 250)).1 =
      [NativeCall.speechGetValue RATE_SUPPORTED, NativeCall.speechSetValue RATE 150,
       NativeCall.speechSetValue RATE_MIN 50, NativeCall.speechSetValue RATE_MAX 250] := by
  have h := set_rate_write_order libOne 150 (some 50) (some 250) (by decide)
  simpa using h

/-- C4: enable_native_speech(b) issues exactly the one native write
speechSetValue(0xFFFF, b) — its trace is the trace of
set_value(ENABLE_NATIVE_SPEECH, b) and nothing else. -/
theorem enable_native_speech_equiv (lib : NativeLib) (b : Bool) :
    (enable_native_speech lib b).2 = (set_value lib ENABLE_NATIVE_SPEECH (boolInt b)).2 ∧
    (enable_native_speech lib b).2 = [NativeCall.speechSetValue 0xFFFF (boolInt b)] := by
  constructor <;> simp [enable_native_speech, set_value, ENABLE_NATIVE_SPEECH]

/-- C5: speech(msg) issues the say call before the braille call, for
every native library — in particular for every status code the say entry
point may return, so the braille call happens regardless of the say
step's outcome. -/
theorem speech_say_before_braille (lib : NativeLib) (msg : String) :
    (speech lib msg).2 = [NativeCall.speechSay msg true, NativeCall.brailleDisplay msg] := by
  simp [speech, say, braille]

/-- C6: on any native library whose engine-name sequence is "A" at offset
0, "B" at offset 1 and empty at offset 2, get_engines returns (for any
fuel covering the three probed offsets) exactly two descriptors, ids 0
and 1 in ascending order, each carrying the name read at its offset and
the availability flag read at ENGINE_AVAILABLE plus its offset. -/
theorem get_engines_two_fixture (lib : NativeLib)
    (hA : lib.speechGetString ENGINE = "A")
    (hB : lib.speechGetString (ENGINE + 1) = "B")
    (hE : lib.speechGetString (ENGINE + 2) = "")
    (fuel : Nat) (hf : 3 ≤ fuel) :
    get_engines lib fuel =
      some [⟨"A", lib.speechGetValue ENGINE_AVAILABLE != 0, 0⟩,
            ⟨"B", lib.speechGetValue (ENGINE_AVAILABLE + 1) != 0, 1⟩] := by
  have hne : ∀ j : Nat, j < 2 → lib.speechGetString (ENGINE + ((0 : Int) + (j : Int))) ≠ "" := by
    intro j hj
    interval_cases j
    · simp only [Nat.cast_zero, add_zero]
      rw [hA]
      decide
    · simp only [Nat.cast_one, zero_add]
      rw [hB]
      decide
  have hemp : lib.speechGetString (ENGINE + ((0 : Int) + ((2 : Nat) : Int))) = "" := by
    simpa using hE
  have h := get_enginesAux_complete lib 2 fuel 0 (by omega) hne hemp
  rw [show get_engines lib fuel = get_enginesAux lib fuel 0 from rfl, h]
  simp [engineAt, List.range_succ, hA, hB]

/-- Witness for C6: the concrete fixture library, with fuel 3. -/
theorem get_engines_two_fixture_witness :
    get_engines libFix 3 =
      some [⟨"A", true, 0⟩, ⟨"B", false, 1⟩] := by
  have h := get_engines_two_fixture libFix rfl rfl rfl 3 (by omega)
  exact h.trans (by decide)

/-- C7: when some offset yields an empty engine name, the enumeration
loop terminates: for any fuel beyond the first such offset, get_engines
returns exactly the descriptors of the offsets before it (name read at
ENGINE + j, availability at ENGINE_AVAILABLE + j, id j, ascending). -/
theorem get_engines_terminates (lib : NativeLib)
    (h : ∃ n : Nat, lib.speechGetString (ENGINE + (n : Int)) = "")
    (fuel : Nat) (hf : Nat.find h < fuel) :
    get_engines lib fuel =
      some ((List.range (Nat.find h)).map (fun j : Nat => engineAt lib (j : Int))) := by
  have hc := get_enginesAux_complete lib (Nat.find h) fuel 0 hf
    (fun j hj => by simpa using Nat.find_min h hj)
    (by simpa using Nat.find_spec h)
  simpa [get_engines] using hc

/-- Witness for C7: on the fixture library the first empty name sits at
offset 2 and fuel 5 suffices. -/
theorem get_engines_terminates_witness :
    get_engines libFix 5 = some [⟨"A", true, 0⟩, ⟨"B", false, 1⟩] := by
  have hex : ∃ n : Nat, libFix.speechGetString (ENGINE + (n : Int)) = "" := ⟨2, by decide⟩
  have hfind : Nat.find hex = 2 := by
    rw [Nat.find_eq_iff]
    exact ⟨by decide, by decide⟩
  have h := get_engines_terminates libFix hex 5 (by rw [hfind]; decide)
  rw [hfind] at h
  exact h.trans (by decide)

/-- C8: the engine_used query returns get_string(ENGINE + e) with e the
value of get_value(ENGINE), and its native-call trace is exactly that
read followed by that string resolution — no other native call. -/
theorem engine_used_reads_then_resolves (lib : NativeLib) :
    (engine_used lib).1 = lib.speechGetString (ENGINE + lib.speechGetValue ENGINE) ∧
    (engine_used lib).2 = [NativeCall.speechGetValue ENGINE,
      NativeCall.speechGetString (ENGINE + lib.speechGetValue ENGINE)] := by
  constructor <;> simp [engine_used, get_value, get_string]

/-- C9: the 22 plain attribute identifiers, in declaration order, are
exactly 0 through 21 (VOLUME = 0 up to WAIT_SUPPORTED = 21); the selector
bases are the fixed large constants ENGINE = 0x40000 and
ENGINE_AVAILABLE = 0x50000, and every base constant lies outside 0..21;
and during enumeration the k-th returned descriptor is built from the
get_string read at ENGINE + k and the get_value read at
ENGINE_AVAILABLE + k for the same k, with id k. -/
theorem parameter_id_layout :
    ([VOLUME, VOLUME_MAX, VOLUME_MIN, VOLUME_SUPPORTED, RATE, RATE_MAX, RATE_MIN,
      RATE_SUPPORTED, PITCH, PITCH_MAX, PITCH_MIN, PITCH_SUPPORTED, INFLEXION,
      INFLEXION_MAX, INFLEXION_MIN, INFLEXION_SUPPORTED, PAUSED, PAUSE_SUPPORTED,
      BUSY, BUSY_SUPPORTED, WAIT, WAIT_SUPPORTED] =
        (List.range 22).map (fun n : Nat => (n : Int)))
    ∧ (ENGINE = 0x40000 ∧ ENGINE_AVAILABLE = 0x50000)
    ∧ (∀ b ∈ [ENABLE_NATIVE_SPEECH, VOICE, LANGUAGE, SUBENGINE, ENGINE,
        ENGINE_AVAILABLE, AUTO_ENGINE, USER_PARAM],
        ∀ p : Int, 0 ≤ p → p ≤ 21 → b ≠ p)
    ∧ (∀ (lb : NativeLib) (fuel : Nat) (l : List EngineDescriptor),
        get_engines lb fuel = some l →
        ∀ k : Nat, k < l.length →
          l.get? k = some ⟨lb.speechGetString (ENGINE + (k : Int)),
            lb.speechGetValue (ENGINE_AVAILABLE + (k : Int)) != 0, (k : Int)⟩) := by
  refine ⟨by decide, ⟨rfl, rfl⟩, ?_, ?_⟩
  · intro b hb p hp0 hp21
    fin_cases hb <;>
      simp only [ENABLE_NATIVE_SPEECH, VOICE, LANGUAGE, SUBENGINE, ENGINE,
        ENGINE_AVAILABLE, AUTO_ENGINE, USER_PARAM] <;> omega
  · intro lb fuel l hl k hk
    have h := get_enginesAux_sound lb fuel 0 l hl k hk
    simpa [engineAt] using h

/-- Witness for C9: applied to the fixture enumeration, the descriptor at
position 1 is the one read at offset 1. -/
theorem parameter_id_layout_witness :
    List.get? [(⟨"A", true, 0⟩ : EngineDescriptor), ⟨"B", false, 1⟩] 1 =
      some ⟨"B", false, 1⟩ := by
  have hsome : get_engines libFix 3 = some [⟨"A", true, 0⟩, ⟨"B", false, 1⟩] := by decide
  have h := parameter_id_layout.2.2.2 libFix 3 _ hsome 1 (by decide)
  exact h.trans (by decide)

/-- C10: speech_a(msg) fails with AttributeError("sayA") before any
native call (its trace is empty), because the class defines say_a but not
sayA; the braille line is never reached. -/
theorem speech_a_attribute_error (lib : NativeLib) (msg : String) :
    speech_a lib msg = ([], Except.error (PyError.AttributeError "sayA"))
    ∧ methodNames.contains "sayA" = false
    ∧ methodNames.contains "say_a" = true :=
  ⟨rfl, rfl, rfl⟩
